import Mathlib

/-!
Shallow embedding of the training driver in src/train_b.py (class WurstCore):
run-config construction, loss-weight selection with checkpoint restore,
generator/EMA model setup, pyramid noise, and the per-step forward and
backward passes.  Machine reals of the source are modelled as rationals
(with a single real-valued square root for the final pyramid rescale).
-/

/-- Untyped Python scalar values, for config fields whose declared dataclass
type is not enforced at runtime (e.g. adaptive_loss_weight, declared str but
defaulting to None and tested with `is True`). -/
inductive PyVal where
  | none
  | bool (b : Bool)
  | str (s : String)
  | int (n : Int)
  | float (q : ℚ)
  deriving DecidableEq, Repr

/-- Loss-weight policy tag: the AdaptiveLossWeight variant versus the fixed
P2LossWeight variant of the gdf package. -/
inductive LWTag where
  | adaptive
  | p2
  deriving DecidableEq, Repr

/-- A loss-weight object as a Python value: its class tag, plus the
bucket_ranges and bucket_losses attributes, each optional because Python
objects acquire attributes by plain assignment (lines 93-94 assign them even
onto a P2LossWeight object). -/
structure LossWeightObj where
  tag : LWTag
  bucket_ranges : Option (List ℚ)
  bucket_losses : Option (List ℚ)
  deriving DecidableEq, Repr

/-- Loss-weight construction on line 88 of setup_extras_pre:
AdaptiveLossWeight() if self.config.adaptive_loss_weight is True else
P2LossWeight().  The fresh attribute states of the two constructors live in
the gdf package and are passed in as parameters. -/
def mkLossWeight (alw : PyVal)
    (freshAdaptive freshP2 : Option (List ℚ) × Option (List ℚ)) : LossWeightObj :=
  if alw = PyVal.bool true then
    ⟨LWTag.adaptive, freshAdaptive.1, freshAdaptive.2⟩
  else
    ⟨LWTag.p2, freshP2.1, freshP2.2⟩

/-- Lines 84-94 of setup_extras_pre restricted to the loss-weight state: build
the loss weight, then, when info.adaptive_loss is not None, assign
bucket_ranges and bucket_losses from the snapshot onto gdf.loss_weight. -/
def setup_extras_pre_loss_weight (alw : PyVal)
    (freshAdaptive freshP2 : Option (List ℚ) × Option (List ℚ))
    (adaptive_loss : Option (List ℚ × List ℚ)) : LossWeightObj :=
  let lw := mkLossWeight alw freshAdaptive freshP2
  match adaptive_loss with
  | Option.none => lw
  | Option.some rl =>
    { lw with bucket_ranges := Option.some rl.1, bucket_losses := Option.some rl.2 }

/-- Raw keyword arguments offered to WurstCore.ConfigDTO: Option.none means
the field was absent from the parsed config. -/
structure RawConfig where
  lr : Option ℚ
  warmup_updates : Option ℤ
  shift : Option ℚ
  model_version : Option String
  clip_text_model_name : Option String
  stage_a_checkpoint_path : Option String
  effnet_checkpoint_path : Option String
  generator_checkpoint_path : Option String
  adaptive_loss_weight : Option PyVal

/-- The validated run configuration, fields as declared on lines 36-53 of
train_b.py (only the fields this class itself declares). -/
structure ConfigDTO where
  lr : ℚ
  warmup_updates : ℤ
  shift : ℚ
  model_version : String
  clip_text_model_name : String
  stage_a_checkpoint_path : String
  effnet_checkpoint_path : String
  generator_checkpoint_path : Option String
  adaptive_loss_weight : PyVal
  deriving DecidableEq, Repr

/-- Modelled from the spec: warp_core.utils.DTO_REQUIRED (the warp_core
package is not under src/) is a sentinel default that makes dataclass
construction fail when the field is not supplied; required versus optional
fields and the optional defaults are exactly the ConfigDTO field declarations
on lines 39-53 of train_b.py. -/
def mkConfigDTO (raw : RawConfig) : Except String ConfigDTO :=
  match raw.lr, raw.warmup_updates, raw.shift, raw.model_version,
      raw.stage_a_checkpoint_path, raw.effnet_checkpoint_path with
  | Option.some lrv, Option.some wu, Option.some sh, Option.some mv,
      Option.some sa, Option.some ef =>
    Except.ok
      { lr := lrv
        warmup_updates := wu
        shift := sh
        model_version := mv
        clip_text_model_name :=
          raw.clip_text_model_name.getD "laion/CLIP-ViT-bigG-14-laion2B-39B-b160k"
        stage_a_checkpoint_path := sa
        effnet_checkpoint_path := ef
        generator_checkpoint_path := raw.generator_checkpoint_path
        adaptive_loss_weight := raw.adaptive_loss_weight.getD PyVal.none }
  | _, _, _, _, _, _ => Except.error "DTO_REQUIRED field missing"

/-- Modelled from the spec: dataclass(frozen=True) semantics — the run config
is read-only after construction, every attribute assignment raises. -/
def config_setattr (_c : ConfigDTO) (_field : String) (_v : PyVal) :
    Except String ConfigDTO :=
  Except.error "FrozenInstanceError"

/-- Generator architecture variants StageB_3B and StageB_700M. -/
inductive GenArch where
  | b3B
  | b700M
  deriving DecidableEq, Repr

/-- A generator module: architecture, parameter state (abstract type α),
training-mode flag and requires_grad flag; freshly constructed modules are in
training mode with gradients enabled. -/
structure GenModel (α : Type) where
  arch : GenArch
  params : α
  trainMode : Bool
  requiresGrad : Bool
  deriving Repr

/-- Events recorded while setting up the EMA generator in setup_models. -/
inductive SMEvent (α : Type) where
  | emaLoadStateDictFromPrimary (p : α)
  | emaLoadModel
  | emaEvalNoGrad
  deriving Repr

/-- Lines 172-179 of setup_models, after the version dispatch: restore the
generator from config.generator_checkpoint_path and then the checkpoint
store, copy the generator state dict into the EMA shadow (when configured),
restore the shadow from the store, and freeze the shadow
(eval + requires_grad_(False)).  The checkpoint store models load_model: an
absent key leaves the module as it was. -/
def setup_models_rest {α : Type} (av : GenArch × α × α) (ema_start_iters : Option ℤ)
    (generator_checkpoint_path : Option α) (store : String → Option α) :
    GenModel α × Option (GenModel α) × List (SMEvent α) :=
  let generator : GenModel α := ⟨av.1, av.2.1, true, true⟩
  let generator_ema : Option (GenModel α) :=
    if ema_start_iters.isSome then
      Option.some ⟨av.1, av.2.2, true, true⟩
    else
      Option.none
  let generator :=
    match generator_checkpoint_path with
    | Option.some p => { generator with params := p }
    | Option.none => generator
  let generator := { generator with params := (store "generator").getD generator.params }
  match generator_ema with
  | Option.none => (generator, Option.none, [])
  | Option.some ema =>
    let ema1 := { ema with params := generator.params }
    let ema2 := { ema1 with params := (store "generator_ema").getD ema1.params }
    let ema3 := { ema2 with trainMode := false, requiresGrad := false }
    (generator, Option.some ema3,
      [SMEvent.emaLoadStateDictFromPrimary generator.params,
       SMEvent.emaLoadModel, SMEvent.emaEvalNoGrad])

/-- The version dispatch of setup_models (lines 156-170): build the generator
and, when EMA is configured, its shadow; raise ValueError for any
unrecognized model_version; then run the rest of the setup. -/
def setup_models_gen {α : Type} (model_version : String) (ema_start_iters : Option ℤ)
    (generator_checkpoint_path : Option α) (store : String → Option α)
    (fresh3B fresh700M freshEma3B freshEma700M : α) :
    Except String (GenModel α × Option (GenModel α) × List (SMEvent α)) :=
  match
    (if model_version = "3B" then
      Except.ok (GenArch.b3B, fresh3B, freshEma3B)
    else if model_version = "700M" then
      Except.ok (GenArch.b700M, fresh700M, freshEma700M)
    else
      Except.error ("Unknown model version " ++ model_version) :
      Except String (GenArch × α × α))
  with
  | Except.error e => Except.error e
  | Except.ok av =>
    Except.ok (setup_models_rest av ema_start_iters generator_checkpoint_path store)

/-- A single batch-and-channel slice of a spatial tensor: height, width and
rational values (only positions inside the grid matter). -/
structure PTensor where
  h : ℕ
  w : ℕ
  val : ℕ → ℕ → ℚ

/-- torch.nn.functional.interpolate with mode nearest: output pixel (y, x)
reads input pixel (y * hin / hout, x * win / wout), with floor division. -/
def interpolate_nearest (t : PTensor) (hout wout : ℕ) : PTensor :=
  ⟨hout, wout, fun y x => t.val (y * t.h / hout) (x * t.w / wout)⟩

/-- The size_range test on line 222 of _pyramid_noise: a level is kept when no
range is given, or when either shrunk dimension lies inside the range. -/
def sizeRangeOk (size_range : Option (ℕ × ℕ)) (h w : ℕ) : Bool :=
  match size_range with
  | Option.none => true
  | Option.some r => decide ((r.1 ≤ h ∧ h ≤ r.2) ∨ (r.1 ≤ w ∧ w ≤ r.2))

/-- Loop state of _pyramid_noise: the accumulated epsilon, the multipliers
list (initially [1]), and whether the for-loop has executed `break`. -/
structure PyrState where
  eps : PTensor
  multipliers : List ℚ
  broken : Bool

/-- One iteration of the level loop of _pyramid_noise (lines 218-227).  Note
the source computes both h and w from epsilon.size(-2), the height:
h, w = epsilon.size(-2)//(2**i), epsilon.size(-2)//(2**i). -/
def pyramid_step (offsets : ℕ → ℕ → ℕ → ℚ) (size_range : Option (ℕ × ℕ))
    (st : PyrState) (i : ℕ) : PyrState :=
  if st.broken then st else
  let m : ℚ := (3 / 4 : ℚ) ^ i
  let h := st.eps.h / 2 ^ i
  let w := st.eps.h / 2 ^ i
  let st1 :=
    if sizeRangeOk size_range h w then
      let offset : PTensor := ⟨h, w, offsets i⟩
      let up := interpolate_nearest offset st.eps.h st.eps.w
      { st with
          eps := ⟨st.eps.h, st.eps.w, fun y x => st.eps.val y x + up.val y x * m⟩
          multipliers := st.multipliers ++ [m] }
    else st
  if h ≤ 1 ∨ w ≤ 1 then { st1 with broken := true } else st1

/-- The level loop of _pyramid_noise: for i in range(1, levels), with the
early break, starting from multipliers = [1] on the cloned base tensor. -/
def pyramid_noise_loop (eps0 : PTensor) (offsets : ℕ → ℕ → ℕ → ℚ)
    (size_range : Option (ℕ × ℕ)) (levels : ℕ) : PyrState :=
  (List.range' 1 (levels - 1)).foldl (pyramid_step offsets size_range) ⟨eps0, [1], false⟩

/-- _pyramid_noise (lines 215-230): the accumulated tensor divided by the
square root of the sum of squared multipliers (line 228).  The fresh noise
drawn by torch.randn at level i is supplied by the function offsets i. -/
noncomputable def pyramid_noise (eps0 : PTensor) (offsets : ℕ → ℕ → ℕ → ℚ)
    (size_range : Option (ℕ × ℕ)) (levels : ℕ) (y x : ℕ) : ℝ :=
  let st := pyramid_noise_loop eps0 offsets size_range levels
  ((st.eps.val y x : ℚ) : ℝ) /
    Real.sqrt (((st.multipliers.map (fun m => m ^ 2)).sum : ℚ) : ℝ)

/-- The per-level step as the claim sentence describes it (reference variant
for comparison with the source): the shrunk width is derived from the input
width epsilon.size(-1), so each spatial dimension is shrunk by 2^i. -/
def pyramid_step_specdims (offsets : ℕ → ℕ → ℕ → ℚ) (size_range : Option (ℕ × ℕ))
    (st : PyrState) (i : ℕ) : PyrState :=
  if st.broken then st else
  let m : ℚ := (3 / 4 : ℚ) ^ i
  let h := st.eps.h / 2 ^ i
  let w := st.eps.w / 2 ^ i
  let st1 :=
    if sizeRangeOk size_range h w then
      let offset : PTensor := ⟨h, w, offsets i⟩
      let up := interpolate_nearest offset st.eps.h st.eps.w
      { st with
          eps := ⟨st.eps.h, st.eps.w, fun y x => st.eps.val y x + up.val y x * m⟩
          multipliers := st.multipliers ++ [m] }
    else st
  if h ≤ 1 ∨ w ≤ 1 then { st1 with broken := true } else st1

/-- The level loop under the claim's per-dimension reading. -/
def pyramid_noise_loop_specdims (eps0 : PTensor) (offsets : ℕ → ℕ → ℕ → ℚ)
    (size_range : Option (ℕ × ℕ)) (levels : ℕ) : PyrState :=
  (List.range' 1 (levels - 1)).foldl (pyramid_step_specdims offsets size_range) ⟨eps0, [1], false⟩

/-- Pyramid noise under the claim's per-dimension reading. -/
noncomputable def pyramid_noise_specdims (eps0 : PTensor) (offsets : ℕ → ℕ → ℕ → ℚ)
    (size_range : Option (ℕ × ℕ)) (levels : ℕ) (y x : ℕ) : ℝ :=
  let st := pyramid_noise_loop_specdims eps0 offsets size_range levels
  ((st.eps.val y x : ℚ) : ℝ) /
    Real.sqrt (((st.multipliers.map (fun m => m ^ 2)).sum : ℚ) : ℝ)

/-- The levels whose noise the loop actually accumulates: walk the level list
in order, keep a level when its shrunk size (height over 2^i, used for both
dimensions) passes the range test, and stop after the first level whose
shrunk size is at most 1. -/
def usedLevels (hgt : ℕ) (size_range : Option (ℕ × ℕ)) : List ℕ → List ℕ
  | [] => []
  | i :: rest =>
    let h := hgt / 2 ^ i
    (if sizeRangeOk size_range h h then [i] else []) ++
      (if h ≤ 1 then [] else usedLevels hgt size_range rest)

/-- Whether a training tensor operation runs with gradient tracking. -/
inductive GradMode where
  | noGrad
  | tracked
  deriving DecidableEq, Repr

/-- The operations forward_pass performs, in order, each tagged with its
gradient mode; update_buckets records its two arguments. -/
inductive FPEvent where
  | getConditions (g : GradMode)
  | encodeLatents (g : GradMode)
  | randnLike (g : GradMode)
  | pyramidNoise (g : GradMode)
  | gdfDiffuse (g : GradMode)
  | generatorForward (g : GradMode)
  | mseLossCall (g : GradMode)
  | updateBuckets (logSNR : List ℚ) (loss : List ℚ)
  deriving DecidableEq, Repr

/-- Recognize an update_buckets event. -/
def isUpdateBuckets : FPEvent → Bool
  | FPEvent.updateBuckets _ _ => true
  | _ => false

/-- Arithmetic mean of a list of rationals (tensor .mean()). -/
def qmean (l : List ℚ) : ℚ := l.sum / (l.length : ℚ)

/-- Per-sample loss on line 245: mse_loss with reduction none followed by
.mean(dim=[1,2,3]); each sample is its flattened channel-height-width list. -/
def mse_per_sample (pred target : List (List ℚ)) : List ℚ :=
  List.zipWith (fun p t => qmean (List.zipWith (fun a b => (a - b) ^ 2) p t)) pred target

/-- The tuple returned by extras.gdf.diffuse on line 241, per sample. -/
structure DiffuseOut where
  noised : List (List ℚ)
  noise : List (List ℚ)
  target : List (List ℚ)
  logSNR : List ℚ
  noise_cond : List ℚ
  loss_weight : List ℚ

/-- forward_pass (lines 233-251): the conditioning, latent encoding, noise
drawing, pyramid noise and gdf.diffuse run inside torch.no_grad(); the
generator call and the mse loss run outside it (gradient-tracked, under
autocast); loss is the per-sample mse, loss_adjusted the loss-weighted mean
divided by config.grad_accum_steps; update_buckets(logSNR, loss) is called
exactly when the loss weight is an AdaptiveLossWeight.  The generator's
prediction and the diffuse output are supplied as parameters (external
collaborators). -/
def forward_pass (grad_accum_steps : ℕ) (lw : LossWeightObj) (dout : DiffuseOut)
    (pred : List (List ℚ)) : List FPEvent × (List ℚ × ℚ) :=
  let loss := mse_per_sample pred dout.target
  let loss_adjusted :=
    qmean (List.zipWith (fun a b => a * b) loss dout.loss_weight) / (grad_accum_steps : ℚ)
  let evs :=
    [FPEvent.getConditions GradMode.noGrad, FPEvent.encodeLatents GradMode.noGrad,
     FPEvent.randnLike GradMode.noGrad, FPEvent.pyramidNoise GradMode.noGrad,
     FPEvent.gdfDiffuse GradMode.noGrad,
     FPEvent.generatorForward GradMode.tracked, FPEvent.mseLossCall GradMode.tracked]
  let evs :=
    if lw.tag = LWTag.adaptive then
      evs ++ [FPEvent.updateBuckets dout.logSNR loss]
    else evs
  (evs, (loss, loss_adjusted))

/-- Python runtime errors backward_pass can raise. -/
inductive PyErr where
  | unboundLocal (name : String)
  deriving DecidableEq, Repr

/-- The operations backward_pass performs, in order.  backwardCall true means
the backward ran inside models.generator.no_sync(). -/
inductive BPEvent where
  | backwardCall (noSync : Bool)
  | clipGradNorm (maxNorm : ℚ)
  | optStep (k : String)
  | schedStep (k : String)
  | zeroGrad (k : String)
  deriving DecidableEq, Repr

/-- The run-mutable state backward_pass touches: info.total_steps. -/
structure BPState where
  total_steps : ℕ
  deriving DecidableEq, Repr

/-- backward_pass (lines 253-270).  With update=True: backward, clip the
generator gradient norm to 1.0, step every optimizer in optimizers.to_dict(),
step every scheduler, zero every optimizer's gradients, increment
info.total_steps, return the gradient norm (whose numeric value, produced by
clip_grad_norm_, is the parameter grad_norm_val).  With update=False: backward
inside no_sync() only — and then `return grad_norm` raises UnboundLocalError,
because grad_norm is only ever assigned in the update=True branch. -/
def backward_pass (update : Bool) (grad_norm_val : ℚ)
    (optKeys schedKeys : List String) (s : BPState) :
    (List BPEvent × BPState) × Except PyErr ℚ :=
  if update then
    (([BPEvent.backwardCall false, BPEvent.clipGradNorm 1]
        ++ optKeys.map BPEvent.optStep
        ++ schedKeys.map BPEvent.schedStep
        ++ optKeys.map BPEvent.zeroGrad,
      ⟨s.total_steps + 1⟩),
     Except.ok grad_norm_val)
  else
    (([BPEvent.backwardCall true], s), Except.error (PyErr.unboundLocal "grad_norm"))

/-! Theorems. -/

/-- Claim C1: every backward_pass call with update=True performs, in this
order, the backward propagation of the adjusted loss, clipping of the
generator's global gradient norm to the ceiling 1.0, a step() on every
optimizer of the optimizer set, a step() on every scheduler of the scheduler
set, zeroing of every optimizer's gradients, and an increment of
info.total_steps by exactly 1. -/
theorem backward_pass_update_true_sequence (grad_norm_val : ℚ)
    (optKeys schedKeys : List String) (s : BPState) :
    (backward_pass true grad_norm_val optKeys schedKeys s).1.1
      = [BPEvent.backwardCall false, BPEvent.clipGradNorm 1]
        ++ optKeys.map BPEvent.optStep
        ++ schedKeys.map BPEvent.schedStep
        ++ optKeys.map BPEvent.zeroGrad
    ∧ (backward_pass true grad_norm_val optKeys schedKeys s).1.2.total_steps
        = s.total_steps + 1
    ∧ (backward_pass true grad_norm_val optKeys schedKeys s).2
        = Except.ok grad_norm_val := by
  refine ⟨rfl, rfl, rfl⟩

/-- Claim C2 (code bug): backward_pass with update=False propagates gradients
inside generator.no_sync() and leaves the optimizer, scheduler, gradient and
step-counter state untouched, but it does not return normally: the final
`return grad_norm` raises UnboundLocalError, since grad_norm is assigned only
in the update=True branch. -/
theorem backward_pass_update_false_raises (grad_norm_val : ℚ)
    (optKeys schedKeys : List String) (s : BPState) :
    backward_pass false grad_norm_val optKeys schedKeys s
      = (([BPEvent.backwardCall true], s),
         Except.error (PyErr.unboundLocal "grad_norm")) := rfl

/-- Claim C4: forward_pass performs the conditioning, latent encoding, noise
draw, pyramid noise and GDF noising under no-gradient mode, then the
gradient-tracked generator call and per-sample MSE loss, and its second
result is the loss-weighted per-sample mean divided by grad_accum_steps. -/
theorem forward_pass_grad_phases_and_adjusted_loss (gas : ℕ) (lw : LossWeightObj)
    (dout : DiffuseOut) (pred : List (List ℚ)) :
    (forward_pass gas lw dout pred).1.take 5
      = [FPEvent.getConditions GradMode.noGrad, FPEvent.encodeLatents GradMode.noGrad,
         FPEvent.randnLike GradMode.noGrad, FPEvent.pyramidNoise GradMode.noGrad,
         FPEvent.gdfDiffuse GradMode.noGrad]
    ∧ ((forward_pass gas lw dout pred).1.drop 5).take 2
      = [FPEvent.generatorForward GradMode.tracked, FPEvent.mseLossCall GradMode.tracked]
    ∧ (forward_pass gas lw dout pred).2.1 = mse_per_sample pred dout.target
    ∧ (forward_pass gas lw dout pred).2.2
      = (List.zipWith (fun a b => a * b) (mse_per_sample pred dout.target) dout.loss_weight).sum
        / ((List.zipWith (fun a b => a * b) (mse_per_sample pred dout.target) dout.loss_weight).length : ℚ)
        / (gas : ℚ) := by
  unfold forward_pass qmean
  by_cases h : lw.tag = LWTag.adaptive <;> simp [h]

/-- Claim C5: forward_pass updates the adaptive bucket state exactly once,
calling update_buckets with the batch logSNR values and the unweighted
per-sample losses, when the loss weight is the Adaptive variant; with the
Fixed variant no bucket update occurs. -/
theorem forward_pass_update_buckets_iff_adaptive (gas : ℕ) (lw : LossWeightObj)
    (dout : DiffuseOut) (pred : List (List ℚ)) :
    (forward_pass gas lw dout pred).1.filter isUpdateBuckets
      = (if lw.tag = LWTag.adaptive then
          [FPEvent.updateBuckets dout.logSNR (mse_per_sample pred dout.target)]
        else []) := by
  unfold forward_pass
  by_cases h : lw.tag = LWTag.adaptive <;> simp [h, isUpdateBuckets]

/-- Claim C6: with a non-None RunInfo.adaptive_loss snapshot, setup_extras_pre
sets the loss weight's bucket_ranges and bucket_losses to exactly the saved
values; with a None snapshot the loss weight keeps its freshly constructed
state. -/
theorem setup_extras_pre_restores_adaptive_loss (alw : PyVal)
    (freshA freshP : Option (List ℚ) × Option (List ℚ)) (r l : List ℚ) :
    (setup_extras_pre_loss_weight alw freshA freshP (Option.some (r, l))).bucket_ranges
        = Option.some r
    ∧ (setup_extras_pre_loss_weight alw freshA freshP (Option.some (r, l))).bucket_losses
        = Option.some l
    ∧ (setup_extras_pre_loss_weight alw freshA freshP (Option.some (r, l))).tag
        = (mkLossWeight alw freshA freshP).tag
    ∧ setup_extras_pre_loss_weight alw freshA freshP Option.none
        = mkLossWeight alw freshA freshP := by
  refine ⟨rfl, rfl, rfl, rfl⟩

/-- Claim C10: the Adaptive loss-weight variant is selected exactly when
config.adaptive_loss_weight is the boolean True; None and every string value
select the Fixed P2 variant; and with P2 selected, a non-None adaptive_loss
snapshot still writes bucket_ranges and bucket_losses onto the P2 object. -/
theorem adaptive_loss_weight_selection
    (freshA freshP : Option (List ℚ) × Option (List ℚ)) :
    (∀ v : PyVal, (mkLossWeight v freshA freshP).tag = LWTag.adaptive ↔ v = PyVal.bool true)
    ∧ (∀ (s : String) (r l : List ℚ),
        (setup_extras_pre_loss_weight (PyVal.str s) freshA freshP (Option.some (r, l))).tag
            = LWTag.p2
        ∧ (setup_extras_pre_loss_weight (PyVal.str s) freshA freshP (Option.some (r, l))).bucket_ranges
            = Option.some r
        ∧ (setup_extras_pre_loss_weight (PyVal.str s) freshA freshP (Option.some (r, l))).bucket_losses
            = Option.some l)
    ∧ (∀ r l : List ℚ,
        (setup_extras_pre_loss_weight PyVal.none freshA freshP (Option.some (r, l))).tag
          = LWTag.p2) := by
  refine ⟨?_, ?_, ?_⟩
  · intro v
    constructor
    · intro h
      by_contra hv
      unfold mkLossWeight at h
      rw [if_neg hv] at h
      exact LWTag.noConfusion h
    · intro h
      subst h
      rfl
  · intro s r l
    refine ⟨?_, rfl, rfl⟩
    show (mkLossWeight (PyVal.str s) freshA freshP).tag = LWTag.p2
    unfold mkLossWeight
    rw [if_neg (by simp)]
  · intro r l
    rfl

/-- Claim C10, concrete instance: the boolean True selects Adaptive, the
string value selects P2 and still receives the restored bucket attributes. -/
theorem adaptive_loss_weight_selection_witness :
    (mkLossWeight (PyVal.bool true) (Option.none, Option.none) (Option.none, Option.none)).tag
        = LWTag.adaptive
    ∧ (setup_extras_pre_loss_weight (PyVal.str "True") (Option.none, Option.none)
        (Option.none, Option.none) (Option.some ([1], [2]))).tag = LWTag.p2
    ∧ (setup_extras_pre_loss_weight (PyVal.str "True") (Option.none, Option.none)
        (Option.none, Option.none) (Option.some ([1], [2]))).bucket_ranges
        = Option.some [1] := by
  have h := adaptive_loss_weight_selection
    ((Option.none : Option (List ℚ)), (Option.none : Option (List ℚ)))
    ((Option.none : Option (List ℚ)), (Option.none : Option (List ℚ)))
  refine ⟨(h.1 (PyVal.bool true)).mpr rfl, (h.2.1 "True" [1] [2]).1, (h.2.1 "True" [1] [2]).2.1⟩

theorem setup_models_gen_3B {α : Type} (ema : Option ℤ) (ck : Option α)
    (store : String → Option α) (f3 f7 e3 e7 : α) :
    setup_models_gen "3B" ema ck store f3 f7 e3 e7
      = Except.ok (setup_models_rest (GenArch.b3B, f3, e3) ema ck store) := rfl

theorem setup_models_gen_700M {α : Type} (ema : Option ℤ) (ck : Option α)
    (store : String → Option α) (f3 f7 e3 e7 : α) :
    setup_models_gen "700M" ema ck store f3 f7 e3 e7
      = Except.ok (setup_models_rest (GenArch.b700M, f7, e7) ema ck store) := rfl

theorem setup_models_gen_unknown {α : Type} (mv : String) (ema : Option ℤ)
    (ck : Option α) (store : String → Option α) (f3 f7 e3 e7 : α)
    (h3 : mv ≠ "3B") (h7 : mv ≠ "700M") :
    setup_models_gen mv ema ck store f3 f7 e3 e7
      = Except.error ("Unknown model version " ++ mv) := by
  unfold setup_models_gen
  rw [if_neg h3, if_neg h7]

theorem setup_models_rest_arch {α : Type} (av : GenArch × α × α) (ema : Option ℤ)
    (ck : Option α) (store : String → Option α) :
    (setup_models_rest av ema ck store).1.arch = av.1 := by
  unfold setup_models_rest
  cases ema <;> cases ck <;> rfl

theorem setup_models_rest_ema_none {α : Type} (av : GenArch × α × α)
    (ck : Option α) (store : String → Option α) :
    (setup_models_rest av Option.none ck store).2.1 = Option.none := by
  unfold setup_models_rest
  cases ck <;> rfl

theorem setup_models_rest_ema_some {α : Type} (av : GenArch × α × α) (n : ℤ)
    (ck : Option α) (store : String → Option α) :
    ∃ g e tr, setup_models_rest av (Option.some n) ck store = (g, Option.some e, tr)
      ∧ e.arch = g.arch
      ∧ e.trainMode = false
      ∧ e.requiresGrad = false
      ∧ SMEvent.emaLoadStateDictFromPrimary g.params ∈ tr
      ∧ (store "generator_ema" = Option.none → e.params = g.params) := by
  cases ck with
  | none =>
    refine ⟨_, _, _, rfl, rfl, rfl, rfl, List.Mem.head _, ?_⟩
    intro hs
    show (store "generator_ema").getD _ = _
    rw [hs]
    rfl
  | some p =>
    refine ⟨_, _, _, rfl, rfl, rfl, rfl, List.Mem.head _, ?_⟩
    intro hs
    show (store "generator_ema").getD _ = _
    rw [hs]
    rfl

/-- Claim C7: setup_models raises exactly when config.model_version is neither
3B nor 700M, and for the two recognized selectors it constructs the matching
generator variant. -/
theorem setup_models_version_dispatch {α : Type} (mv : String) (ema : Option ℤ)
    (ck : Option α) (store : String → Option α) (f3 f7 e3 e7 : α) :
    ((∃ msg, setup_models_gen mv ema ck store f3 f7 e3 e7 = Except.error msg)
        ↔ (mv ≠ "3B" ∧ mv ≠ "700M"))
    ∧ (mv = "3B" → ∃ g rest, setup_models_gen mv ema ck store f3 f7 e3 e7
        = Except.ok (g, rest) ∧ g.arch = GenArch.b3B)
    ∧ (mv = "700M" → ∃ g rest, setup_models_gen mv ema ck store f3 f7 e3 e7
        = Except.ok (g, rest) ∧ g.arch = GenArch.b700M) := by
  refine ⟨⟨?_, ?_⟩, ?_, ?_⟩
  · rintro ⟨msg, hmsg⟩
    constructor
    · intro h3
      subst h3
      rw [setup_models_gen_3B] at hmsg
      exact Except.noConfusion hmsg
    · intro h7
      subst h7
      rw [setup_models_gen_700M] at hmsg
      exact Except.noConfusion hmsg
  · rintro ⟨h3, h7⟩
    exact ⟨_, setup_models_gen_unknown mv ema ck store f3 f7 e3 e7 h3 h7⟩
  · intro h3
    subst h3
    exact ⟨_, _, setup_models_gen_3B ema ck store f3 f7 e3 e7,
      setup_models_rest_arch (GenArch.b3B, f3, e3) ema ck store⟩
  · intro h7
    subst h7
    exact ⟨_, _, setup_models_gen_700M ema ck store f3 f7 e3 e7,
      setup_models_rest_arch (GenArch.b700M, f7, e7) ema ck store⟩

/-- Claim C7, concrete instances: an unknown selector raises, 3B builds the
3B variant. -/
theorem setup_models_version_dispatch_witness :
    (∃ msg, setup_models_gen "1B" Option.none (Option.none : Option ℕ)
        (fun _ => Option.none) 1 2 3 4 = Except.error msg)
    ∧ (∃ g rest, setup_models_gen "3B" Option.none (Option.none : Option ℕ)
        (fun _ => Option.none) 1 2 3 4 = Except.ok (g, rest) ∧ g.arch = GenArch.b3B) := by
  constructor
  · exact (setup_models_version_dispatch "1B" Option.none Option.none
      (fun _ => Option.none) 1 2 3 4).1.mpr ⟨by decide, by decide⟩
  · exact (setup_models_version_dispatch "3B" Option.none Option.none
      (fun _ => Option.none) 1 2 3 4).2.1 rfl

/-- Claim C9: when EMA is configured (ema_start_iters not None) setup_models
produces an EMA shadow of the same architecture as the primary generator,
initializes its parameters from the primary's state dict (the recorded
load_state_dict event; when the checkpoint store has no generator_ema entry
the shadow's final parameters equal the primary's), and freezes it in
no-gradient evaluation mode; when EMA is not configured, generator_ema is
None. -/
theorem setup_models_ema_shadow {α : Type} (mv : String) (ema_start : Option ℤ)
    (ck : Option α) (store : String → Option α) (f3 f7 e3 e7 : α)
    (hmv : mv = "3B" ∨ mv = "700M") :
    (∀ n : ℤ, ema_start = Option.some n →
      ∃ g e tr, setup_models_gen mv ema_start ck store f3 f7 e3 e7
          = Except.ok (g, Option.some e, tr)
        ∧ e.arch = g.arch
        ∧ e.trainMode = false
        ∧ e.requiresGrad = false
        ∧ SMEvent.emaLoadStateDictFromPrimary g.params ∈ tr
        ∧ (store "generator_ema" = Option.none → e.params = g.params))
    ∧ (ema_start = Option.none →
      ∃ g tr, setup_models_gen mv ema_start ck store f3 f7 e3 e7
          = Except.ok (g, Option.none, tr)) := by
  constructor
  · rintro n rfl
    rcases hmv with h | h <;> subst h
    · obtain ⟨g, e, tr, heq, hprops⟩ := setup_models_rest_ema_some (GenArch.b3B, f3, e3) n ck store
      exact ⟨g, e, tr, by rw [setup_models_gen_3B, heq], hprops⟩
    · obtain ⟨g, e, tr, heq, hprops⟩ := setup_models_rest_ema_some (GenArch.b700M, f7, e7) n ck store
      exact ⟨g, e, tr, by rw [setup_models_gen_700M, heq], hprops⟩
  · rintro rfl
    rcases hmv with h | h <;> subst h
    · refine ⟨(setup_models_rest (GenArch.b3B, f3, e3) Option.none ck store).1,
        (setup_models_rest (GenArch.b3B, f3, e3) Option.none ck store).2.2, ?_⟩
      rw [setup_models_gen_3B]
      rw [show ((setup_models_rest (GenArch.b3B, f3, e3) Option.none ck store).1,
          (Option.none : Option (GenModel α)),
          (setup_models_rest (GenArch.b3B, f3, e3) Option.none ck store).2.2)
        = setup_models_rest (GenArch.b3B, f3, e3) Option.none ck store from ?_]
      rw [← setup_models_rest_ema_none (GenArch.b3B, f3, e3) ck store]
    · refine ⟨(setup_models_rest (GenArch.b700M, f7, e7) Option.none ck store).1,
        (setup_models_rest (GenArch.b700M, f7, e7) Option.none ck store).2.2, ?_⟩
      rw [setup_models_gen_700M]
      rw [show ((setup_models_rest (GenArch.b700M, f7, e7) Option.none ck store).1,
          (Option.none : Option (GenModel α)),
          (setup_models_rest (GenArch.b700M, f7, e7) Option.none ck store).2.2)
        = setup_models_rest (GenArch.b700M, f7, e7) Option.none ck store from ?_]
      rw [← setup_models_rest_ema_none (GenArch.b700M, f7, e7) ck store]

/-- Claim C9, concrete instances: with ema_start_iters set the 3B setup yields
a frozen same-architecture shadow initialized from the primary; without it the
shadow is None. -/
theorem setup_models_ema_shadow_witness :
    (∃ g e tr, setup_models_gen "3B" (Option.some 7) (Option.none : Option ℕ)
        (fun _ => Option.none) 1 2 3 4 = Except.ok (g, Option.some e, tr)
      ∧ e.arch = g.arch
      ∧ e.trainMode = false
      ∧ e.requiresGrad = false
      ∧ SMEvent.emaLoadStateDictFromPrimary g.params ∈ tr
      ∧ ((fun _ => (Option.none : Option ℕ)) "generator_ema" = Option.none →
          e.params = g.params))
    ∧ (∃ g tr, setup_models_gen "3B" (Option.none : Option ℤ) (Option.none : Option ℕ)
        (fun _ => Option.none) 1 2 3 4 = Except.ok (g, Option.none, tr)) := by
  constructor
  · exact (setup_models_ema_shadow "3B" (Option.some 7) Option.none
      (fun _ => Option.none) 1 2 3 4 (Or.inl rfl)).1 7 rfl
  · exact (setup_models_ema_shadow "3B" Option.none Option.none
      (fun _ => Option.none) 1 2 3 4 (Or.inl rfl)).2 rfl

/-- Claim C8: ConfigDTO construction succeeds exactly when the six required
fields (lr, warmup_updates, shift, model_version, stage_a_checkpoint_path,
effnet_checkpoint_path) are all present; clip_text_model_name,
generator_checkpoint_path and adaptive_loss_weight are optional and take
their declared defaults when absent; and the constructed config is frozen:
every attribute assignment raises. -/
theorem configDTO_required_optional_frozen (raw : RawConfig) :
    ((∃ c, mkConfigDTO raw = Except.ok c) ↔
      (raw.lr.isSome = true ∧ raw.warmup_updates.isSome = true ∧ raw.shift.isSome = true
        ∧ raw.model_version.isSome = true ∧ raw.stage_a_checkpoint_path.isSome = true
        ∧ raw.effnet_checkpoint_path.isSome = true))
    ∧ (∀ c, mkConfigDTO raw = Except.ok c →
        (raw.clip_text_model_name = Option.none →
          c.clip_text_model_name = "laion/CLIP-ViT-bigG-14-laion2B-39B-b160k")
        ∧ (raw.generator_checkpoint_path = Option.none →
          c.generator_checkpoint_path = Option.none)
        ∧ (raw.adaptive_loss_weight = Option.none →
          c.adaptive_loss_weight = PyVal.none))
    ∧ (∀ c f v, config_setattr c f v = Except.error "FrozenInstanceError") := by
  rcases raw with ⟨flr, fwu, fsh, fmv, fct, fsa, fef, fgc, falw⟩
  refine ⟨?_, ?_, fun c f v => rfl⟩
  · cases flr <;> cases fwu <;> cases fsh <;> cases fmv <;> cases fsa <;> cases fef <;>
      simp [mkConfigDTO]
  · cases flr <;> cases fwu <;> cases fsh <;> cases fmv <;> cases fsa <;> cases fef <;>
      intro c hc <;> simp [mkConfigDTO] at hc <;> subst hc <;>
      exact ⟨fun h => by simp_all, fun h => by simp_all, fun h => by simp_all⟩

/-- Claim C8, concrete instances: the full raw config constructs (with the
declared defaults), and dropping lr makes construction fail. -/
theorem configDTO_required_optional_frozen_witness :
    (∃ c, mkConfigDTO ⟨Option.some 1, Option.some 10000, Option.some 4, Option.some "3B",
        Option.none, Option.some "models/stage_a.pt", Option.some "models/effnet.pt",
        Option.none, Option.none⟩ = Except.ok c)
    ∧ ¬ (∃ c, mkConfigDTO ⟨Option.none, Option.some 10000, Option.some 4, Option.some "3B",
        Option.none, Option.some "models/stage_a.pt", Option.some "models/effnet.pt",
        Option.none, Option.none⟩ = Except.ok c) := by
  constructor
  · exact (configDTO_required_optional_frozen _).1.mpr ⟨rfl, rfl, rfl, rfl, rfl, rfl⟩
  · intro hex
    exact absurd ((configDTO_required_optional_frozen _).1.mp hex).1 (by decide)

theorem pyramid_foldl_broken (offsets : ℕ → ℕ → ℕ → ℚ) (size_range : Option (ℕ × ℕ)) :
    ∀ (ls : List ℕ) (st : PyrState), st.broken = true →
      ls.foldl (pyramid_step offsets size_range) st = st := by
  intro ls
  induction ls with
  | nil => intro st hb; rfl
  | cons i rest ih =>
    intro st hb
    rw [List.foldl_cons]
    have hstep : pyramid_step offsets size_range st i = st := by
      unfold pyramid_step
      rw [hb]
      rfl
    rw [hstep]
    exact ih st hb

theorem pyramid_foldl_closed (offsets : ℕ → ℕ → ℕ → ℚ) (size_range : Option (ℕ × ℕ))
    (hgt wid : ℕ) :
    ∀ (ls : List ℕ) (v0 : ℕ → ℕ → ℚ) (ms : List ℚ),
      ((ls.foldl (pyramid_step offsets size_range) ⟨⟨hgt, wid, v0⟩, ms, false⟩).multipliers
          = ms ++ (usedLevels hgt size_range ls).map (fun i => (3 / 4 : ℚ) ^ i))
      ∧ ((ls.foldl (pyramid_step offsets size_range) ⟨⟨hgt, wid, v0⟩, ms, false⟩).eps.h = hgt)
      ∧ ((ls.foldl (pyramid_step offsets size_range) ⟨⟨hgt, wid, v0⟩, ms, false⟩).eps.w = wid)
      ∧ ∀ y x, (ls.foldl (pyramid_step offsets size_range) ⟨⟨hgt, wid, v0⟩, ms, false⟩).eps.val y x
          = v0 y x + ((usedLevels hgt size_range ls).map
              (fun i => offsets i (y * (hgt / 2 ^ i) / hgt) (x * (hgt / 2 ^ i) / wid)
                * (3 / 4 : ℚ) ^ i)).sum := by
  intro ls
  induction ls with
  | nil =>
    intro v0 ms
    refine ⟨by simp [usedLevels], rfl, rfl, ?_⟩
    intro y x
    simp [usedLevels]
  | cons i rest ih =>
    intro v0 ms
    rw [List.foldl_cons]
    by_cases hk : sizeRangeOk size_range (hgt / 2 ^ i) (hgt / 2 ^ i) = true
    · by_cases hb1 : hgt / 2 ^ i ≤ 1
      · have hstep : pyramid_step offsets size_range ⟨⟨hgt, wid, v0⟩, ms, false⟩ i
            = ⟨⟨hgt, wid, fun y x => v0 y x
                + offsets i (y * (hgt / 2 ^ i) / hgt) (x * (hgt / 2 ^ i) / wid)
                  * (3 / 4 : ℚ) ^ i⟩,
              ms ++ [(3 / 4 : ℚ) ^ i], true⟩ := by
          unfold pyramid_step interpolate_nearest
          simp [hk, hb1]
        rw [hstep, pyramid_foldl_broken offsets size_range rest _ rfl]
        refine ⟨by simp [usedLevels, hk, hb1], rfl, rfl, ?_⟩
        intro y x
        simp [usedLevels, hk, hb1]
      · have hstep : pyramid_step offsets size_range ⟨⟨hgt, wid, v0⟩, ms, false⟩ i
            = ⟨⟨hgt, wid, fun y x => v0 y x
                + offsets i (y * (hgt / 2 ^ i) / hgt) (x * (hgt / 2 ^ i) / wid)
                  * (3 / 4 : ℚ) ^ i⟩,
              ms ++ [(3 / 4 : ℚ) ^ i], false⟩ := by
          unfold pyramid_step interpolate_nearest
          simp [hk, hb1]
        rw [hstep]
        obtain ⟨ih1, ih2, ih3, ih4⟩ := ih
          (fun y x => v0 y x
            + offsets i (y * (hgt / 2 ^ i) / hgt) (x * (hgt / 2 ^ i) / wid) * (3 / 4 : ℚ) ^ i)
          (ms ++ [(3 / 4 : ℚ) ^ i])
        refine ⟨?_, ih2, ih3, ?_⟩
        · rw [ih1]
          simp [usedLevels, hk, hb1]
        · intro y x
          rw [ih4 y x]
          simp [usedLevels, hk, hb1, add_assoc]
    · by_cases hb1 : hgt / 2 ^ i ≤ 1
      · have hstep : pyramid_step offsets size_range ⟨⟨hgt, wid, v0⟩, ms, false⟩ i
            = ⟨⟨hgt, wid, v0⟩, ms, true⟩ := by
          unfold pyramid_step interpolate_nearest
          simp [hk, hb1]
        rw [hstep, pyramid_foldl_broken offsets size_range rest _ rfl]
        refine ⟨by simp [usedLevels, hk, hb1], rfl, rfl, ?_⟩
        intro y x
        simp [usedLevels, hk, hb1]
      · have hstep : pyramid_step offsets size_range ⟨⟨hgt, wid, v0⟩, ms, false⟩ i
            = ⟨⟨hgt, wid, v0⟩, ms, false⟩ := by
          unfold pyramid_step interpolate_nearest
          simp [hk, hb1]
        rw [hstep]
        obtain ⟨ih1, ih2, ih3, ih4⟩ := ih v0 ms
        refine ⟨?_, ih2, ih3, ?_⟩
        · rw [ih1]
          simp [usedLevels, hk, hb1]
        · intro y x
          rw [ih4 y x]
          simp [usedLevels, hk, hb1]

/-- Claim C3 (amended): _pyramid_noise iterates levels i = 1..levels-1; at
each level it generates square noise whose two sides both equal the base
tensor's height (size(-2)) shrunk by 2^i, nearest-upsamples it to full
resolution, scales it by 0.75^i and accumulates it onto the result; a level is
skipped when its shrunk size falls outside the given valid range; iteration
terminates after the first level whose shrunk size reaches 1 (or below); and
the accumulated result is finally rescaled by the inverse square root of the
sum of the squared decay factors actually used, including the base tensor's
factor 1. -/
theorem pyramid_noise_characterization (eps0 : PTensor) (offsets : ℕ → ℕ → ℕ → ℚ)
    (size_range : Option (ℕ × ℕ)) (levels : ℕ) (y x : ℕ) :
    (pyramid_noise_loop eps0 offsets size_range levels).multipliers
        = 1 :: (usedLevels eps0.h size_range (List.range' 1 (levels - 1))).map
            (fun i => (3 / 4 : ℚ) ^ i)
    ∧ pyramid_noise eps0 offsets size_range levels y x
        = ((eps0.val y x
            + List.sum (List.map
                (fun i => offsets i (y * (eps0.h / 2 ^ i) / eps0.h) (x * (eps0.h / 2 ^ i) / eps0.w)
                  * (3 / 4 : ℚ) ^ i)
                (usedLevels eps0.h size_range (List.range' 1 (levels - 1)))) : ℚ) : ℝ)
          / Real.sqrt ((List.sum (List.map (fun m => m ^ 2)
              ((1 : ℚ) :: List.map (fun i => (3 / 4 : ℚ) ^ i)
                (usedLevels eps0.h size_range (List.range' 1 (levels - 1))))) : ℚ) : ℝ) := by
  obtain ⟨h0, w0, v0⟩ := eps0
  obtain ⟨hm, hh, hw, hv⟩ := pyramid_foldl_closed offsets size_range h0 w0
    (List.range' 1 (levels - 1)) v0 [1]
  constructor
  · exact hm
  · simp only [pyramid_noise, pyramid_noise_loop]
    rw [hv y x, hm]
    rfl

/-- Claim C3, counterexample: on a 4 by 8 base tensor the code derives both
shrunk dimensions from the height (size(-2)), so the level-1 noise is 2 by 2,
while the claim's reading (each spatial dimension shrunk by 2^i) gives 2 by 4;
the resulting noise differs at pixel (0, 7). -/
theorem pyramid_noise_not_per_dimension :
    pyramid_noise ⟨4, 8, fun _ _ => 0⟩ (fun i _ x => if i = 1 then (x : ℚ) else 0)
        Option.none 2 0 7
      ≠ pyramid_noise_specdims ⟨4, 8, fun _ _ => 0⟩ (fun i _ x => if i = 1 then (x : ℚ) else 0)
        Option.none 2 0 7 := by
  have hval : (pyramid_noise_loop ⟨4, 8, fun _ _ => 0⟩
      (fun i _ x => if i = 1 then (x : ℚ) else 0) Option.none 2).eps.val 0 7 = 3 / 4 := by
    norm_num [pyramid_noise_loop, pyramid_step, interpolate_nearest, sizeRangeOk,
      List.range'_one]
  have hmul : (pyramid_noise_loop ⟨4, 8, fun _ _ => 0⟩
      (fun i _ x => if i = 1 then (x : ℚ) else 0) Option.none 2).multipliers = [1, 3 / 4] := by
    norm_num [pyramid_noise_loop, pyramid_step, interpolate_nearest, sizeRangeOk,
      List.range'_one]
  have hval2 : (pyramid_noise_loop_specdims ⟨4, 8, fun _ _ => 0⟩
      (fun i _ x => if i = 1 then (x : ℚ) else 0) Option.none 2).eps.val 0 7 = 9 / 4 := by
    norm_num [pyramid_noise_loop_specdims, pyramid_step_specdims, interpolate_nearest,
      sizeRangeOk, List.range'_one]
  have hmul2 : (pyramid_noise_loop_specdims ⟨4, 8, fun _ _ => 0⟩
      (fun i _ x => if i = 1 then (x : ℚ) else 0) Option.none 2).multipliers = [1, 3 / 4] := by
    norm_num [pyramid_noise_loop_specdims, pyramid_step_specdims, interpolate_nearest,
      sizeRangeOk, List.range'_one]
  simp only [pyramid_noise, pyramid_noise_specdims]
  rw [hval, hmul, hval2, hmul2]
  have hsum : List.sum (List.map (fun m => m ^ 2) [(1 : ℚ), 3 / 4]) = 25 / 16 := by
    norm_num
  rw [hsum]
  have hsqrt : Real.sqrt (((25 : ℚ) / 16 : ℚ) : ℝ) = 5 / 4 := by
    have h1 : (((25 : ℚ) / 16 : ℚ) : ℝ) = (5 / 4 : ℝ) ^ 2 := by
      push_cast
      norm_num
    rw [h1, Real.sqrt_sq (by norm_num : (0 : ℝ) ≤ 5 / 4)]
  rw [hsqrt]
  push_cast
  norm_num
